import Mathlib

/-!
# Verification of the `tlab_google` client binding

A shallow embedding of the credential lifecycle (`credentials.py`) and the
Gmail facade (`gmail.py`) of the repository, together with theorems settling
the specification claims.

Conventions of the embedding:
* The opaque OAuth token object is a `Token` record carrying the fields this
  code inspects (`valid`, `refresh_token`) plus an opaque JSON serialization.
* External collaborators (consent flow, refresh transport, remote service)
  are function parameters; operations return the list of remote requests they
  issue, so "exactly one call" is provable.
* Python truthiness tests (`if client_id:`, `if creds.refresh_token:`,
  `page_token or ""`) are translated by explicit truthiness functions.
* Exceptions become `Except` values; the `ValueError`s raised by this code
  are the spec's domain errors (`InvalidCredentialsError`,
  `SignatureNotFoundError`); an uncaught `list.pop` on an empty list is
  `indexError`.
-/

/-- The opaque authorized-user token, restricted to the fields the repository
reads: `valid`, `refresh_token` (None or a string), and its JSON
serialization (opaque here, produced externally by `to_json`). -/
structure Token where
  valid : Bool
  refresh_token : Option String
  json : String
deriving DecidableEq

/-- `token.to_json()` of the external token object. -/
def Token.to_json (t : Token) : String := t.json

/-- Python truthiness of a `str | None` value: `None` and `""` are falsy. -/
def truthyStr (o : Option String) : Bool :=
  match o with
  | none => false
  | some s => s != ""

/-- Domain error of `credentials.py`: the `ValueError("The credentials is
not valid and has no refresh token")`, which the spec names
`InvalidCredentialsError`. -/
inductive CredentialsError where
  | invalidCredentials
deriving DecidableEq

/-- The `Credentials` dataclass: wraps one token object. -/
structure Credentials where
  _credentials : Token
deriving DecidableEq

/-- `load_credentials(filepath, scopes)` after the external collaborator has
deserialized the file into `tok`. `refresh` is the external
`creds.refresh(requests.Request())` mutation. The second component counts
how many refresh calls were performed. -/
def load_credentials (tok : Token) (refresh : Token → Token) :
    Except CredentialsError Credentials × Nat :=
  if tok.valid then (.ok ⟨tok⟩, 0)
  else if truthyStr tok.refresh_token then (.ok ⟨refresh tok⟩, 1)
  else (.error .invalidCredentials, 0)

/-- A file system as a map from path to file content. -/
def FileSystem : Type := String → Option String

/-- `Credentials.save(filepath)`: opens the file for writing (truncating) and
writes the token's JSON serialization. -/
def Credentials.save (c : Credentials) (path : String) (fs : FileSystem) :
    FileSystem :=
  fun p => if p = path then some c._credentials.to_json else fs p

/-- The client configuration dictionary's `"installed"` entry, with the keys
`get_default_config` populates. -/
structure InstalledConfig where
  client_id : String
  project_id : String
  auth_uri : String
  token_uri : String
  auth_provider_x509_cert_url : String
  client_secret : String
  redirect_uris : List String
deriving DecidableEq

/-- `get_default_config()` from `credentials.py`. -/
def get_default_config : InstalledConfig where
  client_id := "629905107772-2rq0b441g8k6v428ul0hvhlp0p8pq09a.apps.googleusercontent.com"
  project_id := "tlab-346715"
  auth_uri := "https://accounts.google.com/o/oauth2/auth"
  token_uri := "https://oauth2.googleapis.com/token"
  auth_provider_x509_cert_url := "https://www.googleapis.com/oauth2/v1/certs"
  client_secret := "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"
  redirect_uris := ["http://localhost"]

/-- The client configuration `new_credentials` assembles: the default, with
`client_id`/`client_secret` overridden under Python truthiness
(`if client_id:` / `if client_secret:`). -/
def new_client_config (client_id client_secret : Option String) :
    InstalledConfig :=
  let c0 := get_default_config
  let c1 := if truthyStr client_id then
      { c0 with client_id := client_id.getD "" } else c0
  if truthyStr client_secret then
    { c1 with client_secret := client_secret.getD "" } else c1

/-- `new_credentials(scopes, client_id, client_secret, run_local_server)`.
The consent-flow collaborator is `InstalledAppFlow.from_client_config`, whose
invocations are logged in the first component; `localGrant`/`consoleGrant`
are its `run_local_server`/`run_console` grant methods. -/
def new_credentials (scopes : List String)
    (client_id client_secret : Option String) (run_local_server : Bool)
    (localGrant consoleGrant : InstalledConfig → List String → Token) :
    List (InstalledConfig × List String) × Credentials :=
  let cfg := new_client_config client_id client_secret
  let tok := if run_local_server then localGrant cfg scopes
    else consoleGrant cfg scopes
  ([(cfg, scopes)], ⟨tok⟩)

/-- Domain and built-in errors `gmail.py` can raise locally:
`signatureNotFound` is the `ValueError(f"A signature for {address} not
found")` the spec names `SignatureNotFoundError`; `indexError` is the
uncaught `IndexError` of `list.pop()` on an empty list. -/
inductive GmailError where
  | signatureNotFound (address : String)
  | indexError
deriving DecidableEq

/-- A `Message`: an opaque string-keyed mapping, modelled as an ordered
association list of string keys and values. -/
abbrev Message := List (String × String)

/-- The shallow key/value copy `{str(key): message[key] for key in message}`
applied to a string-keyed mapping. -/
def copyMessage (m : Message) : Message := m.map (fun kv => (kv.1, kv.2))

/-- Python `a or b` for `a : str | None`: `None` and `""` are falsy. -/
def pyOrStr (a : Option String) (b : String) : String :=
  match a with
  | none => b
  | some s => if s = "" then b else s

/-- Python `a or b` for `a : list | None`: `None` and `[]` are falsy. -/
def pyOrList (a : Option (List String)) (b : List String) : List String :=
  match a with
  | none => b
  | some l => if l = [] then b else l

/-- One send-as alias record from the `sendAs` settings response, restricted
to the fields `get_signature` reads; `isDefault` and `signature` may be
absent from the JSON object. -/
structure SendAs where
  sendAsEmail : String
  isDefault : Option Bool
  signature : Option String
deriving DecidableEq

/-- Python dict update `d[k] = v`: replace the value at an existing key in
place, otherwise append the binding at the end (insertion order). -/
def insertDict (d : List (String × SendAs)) (k : String) (v : SendAs) :
    List (String × SendAs) :=
  match d with
  | [] => [(k, v)]
  | p :: rest => if p.1 = k then (k, v) :: rest else p :: insertDict rest k v

/-- Python dict lookup `d[k]` / `k in d`, as an option. -/
def dictGet (d : List (String × SendAs)) (k : String) : Option SendAs :=
  match d with
  | [] => none
  | p :: rest => if p.1 = k then some p.2 else dictGet rest k

/-- The dict comprehension
`{sendas["sendAsEmail"]: sendas for sendas in response.get("sendAs", [])}`. -/
def buildDict (l : List SendAs) : List (String × SendAs) :=
  l.foldl (fun d s => insertDict d s.sendAsEmail s) []

/-- The last element of `l` whose `sendAsEmail` equals `a`, if any; the value
a Python dict comprehension keyed by `sendAsEmail` ends up holding at `a`. -/
def lastMatch (l : List SendAs) (a : String) : Option SendAs :=
  match l with
  | [] => none
  | x :: xs =>
    match lastMatch xs a with
    | some v => some v
    | none => if x.sendAsEmail = a then some x else none

namespace GmailAPI

/-- The `user_id` dataclass field's default, the special value `"me"`. -/
def user_id : String := "me"

/-- The `service_name` property of `GmailAPI`. -/
def service_name : String := "gmail"

/-- `GmailAPI.get_default_scopes()`. -/
def get_default_scopes : List String :=
  ["https://www.googleapis.com/auth/gmail.send",
   "https://www.googleapis.com/auth/gmail.readonly"]

/-- `__post_init__`: the effective version is `self.version or "v1"`; the
dataclass default for `version` is `""` (from `AbstractAPI`). -/
def post_init_version (version : String) : String :=
  if version = "" then "v1" else version

/-- The keyword arguments of `users().messages().list(...)`. -/
structure ListRequest where
  userId : String
  q : String
  maxResults : Int
  pageToken : String
  labelIds : List String
  includeSpamTrash : Bool
deriving DecidableEq

/-- The fields of the remote list response that `list_message` reads; each
may be absent. -/
structure ListResponse where
  messages : Option (List Message)
  nextPageToken : Option String
  resultSizeEstimate : Option Int

/-- `GmailAPI.list_message(query, max_results, page_token, label_ids,
include_spam_trash)` against a remote response; the first component logs the
issued requests. -/
def list_message (query : String) (max_results : Int)
    (page_token : Option String) (label_ids : Option (List String))
    (include_spam_trash : Bool) (response : ListResponse) :
    List ListRequest × (List Message × String × Int) :=
  let req : ListRequest :=
    { userId := user_id
      q := query
      maxResults := max_results
      pageToken := pyOrStr page_token ""
      labelIds := pyOrList label_ids []
      includeSpamTrash := include_spam_trash }
  ([req],
    ((response.messages.getD []).map copyMessage,
     response.nextPageToken.getD "",
     response.resultSizeEstimate.getD 0))

/-- The keyword arguments of `users().messages().send(...)`: a `userId` and
the `body={"raw": ...}` payload. -/
structure SendRequest where
  userId : String
  raw : String
deriving DecidableEq

/-- `GmailAPI.get_signature(address)` against the send-as alias list of the
remote settings response (`response.get("sendAs", [])`). -/
def get_signature (response : List SendAs) (address : Option String) :
    Except GmailError String :=
  let addr_to_sendas := buildDict response
  match address with
  | none =>
    match ((addr_to_sendas.map Prod.snd).filter
        (fun s => s.isDefault.getD true)).getLast? with
    | some sendas => .ok (sendas.signature.getD "")
    | none => .error .indexError
  | some a =>
    match dictGet addr_to_sendas a with
    | none => .error (.signatureNotFound a)
    | some sendas => .ok (sendas.signature.getD "")

end GmailAPI

/-- The base64 alphabet in its URL-safe variant (`base64.urlsafe_b64encode`):
`+` and `/` are replaced by `-` and `_`. -/
def b64urlAlphabet : List Char :=
  "ABCDEFGHIJKLMNOPQRSTUVWXYZabcdefghijklmnopqrstuvwxyz0123456789-_".toList

/-- The URL-safe base64 digit for a 6-bit value. -/
def b64char (n : Nat) : Char := b64urlAlphabet.getD n 'A'

/-- `base64.urlsafe_b64encode` on a byte string: three bytes become four
6-bit digits; a 1- or 2-byte tail is padded with `=`. -/
def base64urlEncode : List Nat → List Char
  | [] => []
  | [b0] => [b64char (b0 / 4), b64char (b0 % 4 * 16), '=', '=']
  | [b0, b1] =>
    [b64char (b0 / 4), b64char (b0 % 4 * 16 + b1 / 16),
     b64char (b1 % 16 * 4), '=']
  | b0 :: b1 :: b2 :: rest =>
    b64char (b0 / 4) :: b64char (b0 % 4 * 16 + b1 / 16) ::
    b64char (b1 % 16 * 4 + b2 / 64) :: b64char (b2 % 64) ::
    base64urlEncode rest

namespace GmailAPI

/-- `GmailAPI.send_message(message)`: the message is represented by the byte
string `message.as_bytes()` returns; the issued send requests are logged in
the first component. -/
def send_message (msgBytes : List Nat) : List SendRequest × Unit :=
  let raw_body := String.mk (base64urlEncode msgBytes)
  ([{ userId := user_id, raw := raw_body }], ())

end GmailAPI

/-! ## Lemmas about the Python-dict embedding -/

theorem dictGet_insertDict (d : List (String × SendAs)) (k : String)
    (v : SendAs) (a : String) :
    dictGet (insertDict d k v) a = if a = k then some v else dictGet d a := by
  induction d with
  | nil =>
    by_cases h : a = k
    · simp [insertDict, dictGet, h]
    · have hk : ¬ k = a := fun hh => h hh.symm
      simp [insertDict, dictGet, h, hk]
  | cons p rest ih =>
    simp only [insertDict]
    by_cases hpk : p.1 = k
    · simp only [if_pos hpk, dictGet]
      by_cases h : a = k
      · simp [h]
      · have hk : ¬ k = a := fun hh => h hh.symm
        have hpa : ¬ p.1 = a := fun hh => h (hh.symm.trans hpk)
        simp [h, hk, hpa]
    · simp only [if_neg hpk, dictGet]
      by_cases hpa : p.1 = a
      · have h : ¬ a = k := fun hh => hpk (hpa.trans hh)
        simp [hpa, h]
      · simp [hpa, ih]

theorem dictGet_buildDict_aux (l : List SendAs)
    (d : List (String × SendAs)) (a : String) :
    dictGet (l.foldl (fun d s => insertDict d s.sendAsEmail s) d) a =
      match lastMatch l a with
      | some v => some v
      | none => dictGet d a := by
  induction l generalizing d with
  | nil => simp [lastMatch]
  | cons x xs ih =>
    simp only [List.foldl_cons, ih, lastMatch]
    cases hxs : lastMatch xs a with
    | some v => rfl
    | none =>
      simp only [dictGet_insertDict]
      by_cases h : a = x.sendAsEmail <;> simp [h, Eq.comm]

theorem dictGet_buildDict (l : List SendAs) (a : String) :
    dictGet (buildDict l) a = lastMatch l a := by
  rw [buildDict, dictGet_buildDict_aux]
  cases lastMatch l a <;> simp [dictGet]

theorem lastMatch_eq_none (l : List SendAs) (a : String) :
    lastMatch l a = none ↔ ∀ s ∈ l, s.sendAsEmail ≠ a := by
  induction l with
  | nil => simp [lastMatch]
  | cons x xs ih =>
    simp only [lastMatch, List.mem_cons]
    cases hxs : lastMatch xs a with
    | some v =>
      simp only [reduceCtorEq, false_iff]
      intro h
      have := (ih.mpr (fun s hs => h s (Or.inr hs)))
      exact absurd (hxs.symm.trans this) (by simp)
    | none =>
      constructor
      · intro h s hs
        rcases hs with rfl | hs
        · intro hh; simp [hh] at h
        · exact ih.mp hxs s hs
      · intro h
        simp [h x (Or.inl rfl)]

theorem lastMatch_mem (l : List SendAs) (a : String) (v : SendAs)
    (h : lastMatch l a = some v) : v ∈ l ∧ v.sendAsEmail = a := by
  induction l with
  | nil => simp [lastMatch] at h
  | cons x xs ih =>
    simp only [lastMatch] at h
    cases hxs : lastMatch xs a with
    | some w =>
      rw [hxs] at h
      obtain rfl : w = v := by simpa using h
      obtain ⟨h1, h2⟩ := ih hxs
      exact ⟨List.mem_cons_of_mem x h1, h2⟩
    | none =>
      rw [hxs] at h
      by_cases hx : x.sendAsEmail = a
      · simp only [hx, if_pos rfl] at h
        obtain rfl : x = v := by simpa using h
        exact ⟨List.mem_cons_self x xs, hx⟩
      · simp [hx] at h

theorem insertDict_append (d : List (String × SendAs)) (k : String)
    (v : SendAs) (h : ∀ p ∈ d, p.1 ≠ k) : insertDict d k v = d ++ [(k, v)] := by
  induction d with
  | nil => simp [insertDict]
  | cons p rest ih =>
    have hpk : ¬ p.1 = k := h p (List.mem_cons_self p rest)
    simp [insertDict, hpk,
      ih (fun q hq => h q (List.mem_cons_of_mem p hq))]

theorem buildDict_nodup_aux (l : List SendAs)
    (hnd : (l.map SendAs.sendAsEmail).Nodup) (d : List (String × SendAs))
    (h : ∀ s ∈ l, ∀ p ∈ d, p.1 ≠ s.sendAsEmail) :
    l.foldl (fun d s => insertDict d s.sendAsEmail s) d =
      d ++ l.map (fun s => (s.sendAsEmail, s)) := by
  induction l generalizing d with
  | nil => simp
  | cons x xs ih =>
    simp only [List.map_cons, List.nodup_cons, List.mem_map] at hnd
    obtain ⟨hx, hxs⟩ := hnd
    simp only [List.foldl_cons]
    rw [insertDict_append d x.sendAsEmail x
      (fun p hp => h x (List.mem_cons_self x xs) p hp)]
    rw [ih hxs (d ++ [(x.sendAsEmail, x)]) ?_]
    · simp
    · intro s hs p hp
      rcases List.mem_append.mp hp with hp | hp
      · exact h s (List.mem_cons_of_mem x hs) p hp
      · obtain rfl : p = (x.sendAsEmail, x) := by simpa using hp
        intro hh
        exact hx ⟨s, hs, hh.symm⟩

theorem buildDict_of_nodup (l : List SendAs)
    (hnd : (l.map SendAs.sendAsEmail).Nodup) :
    buildDict l = l.map (fun s => (s.sendAsEmail, s)) := by
  have h := buildDict_nodup_aux l hnd [] (by simp)
  simpa [buildDict] using h

theorem copyMessage_id (m : Message) : copyMessage m = m := by
  simp [copyMessage]

/-! ## Lemmas about the assembled client configuration -/

theorem new_client_config_client_id (cid cs : Option String) :
    (new_client_config cid cs).client_id =
      if truthyStr cid then cid.getD "" else get_default_config.client_id := by
  by_cases h1 : truthyStr cid <;> by_cases h2 : truthyStr cs <;>
    simp [new_client_config, h1, h2]

theorem new_client_config_client_secret (cid cs : Option String) :
    (new_client_config cid cs).client_secret =
      if truthyStr cs then cs.getD ""
      else get_default_config.client_secret := by
  by_cases h1 : truthyStr cid <;> by_cases h2 : truthyStr cs <;>
    simp [new_client_config, h1, h2]

theorem new_client_config_fixed_fields (cid cs : Option String) :
    (new_client_config cid cs).project_id = get_default_config.project_id ∧
    (new_client_config cid cs).auth_uri = get_default_config.auth_uri ∧
    (new_client_config cid cs).token_uri = get_default_config.token_uri ∧
    (new_client_config cid cs).auth_provider_x509_cert_url =
      get_default_config.auth_provider_x509_cert_url ∧
    (new_client_config cid cs).redirect_uris =
      get_default_config.redirect_uris := by
  by_cases h1 : truthyStr cid <;> by_cases h2 : truthyStr cs <;>
    simp [new_client_config, h1, h2]

theorem map_copyMessage (l : List Message) : l.map copyMessage = l := by
  induction l with
  | nil => rfl
  | cons m rest ih => simp [copyMessage, ih]

/-! ## Claims about the credential lifecycle -/

/-- Claim C1: `load(path, scopes)` returns the loaded token unchanged and
performs no refresh when the token is valid; refreshes exactly once and
returns the mutated token when it is invalid with a (truthy) refresh token;
and fails with the invalid-credentials error without ever refreshing when it
is invalid with no refresh token. -/
theorem load_credentials_spec (tok : Token) (refresh : Token → Token) :
    (tok.valid = true → load_credentials tok refresh = (.ok ⟨tok⟩, 0)) ∧
    (tok.valid = false → truthyStr tok.refresh_token = true →
      load_credentials tok refresh = (.ok ⟨refresh tok⟩, 1)) ∧
    (tok.valid = false → truthyStr tok.refresh_token = false →
      load_credentials tok refresh = (.error .invalidCredentials, 0)) := by
  refine ⟨fun h => by simp [load_credentials, h],
    fun h1 h2 => by simp [load_credentials, h1, h2],
    fun h1 h2 => by simp [load_credentials, h1, h2]⟩

/-- Concrete instances of claim C1: a valid token, an invalid token with a
refresh token, and an invalid token without one. -/
theorem load_credentials_spec_witness :
    load_credentials ⟨true, none, "tok"⟩ id = (.ok ⟨⟨true, none, "tok"⟩⟩, 0) ∧
    load_credentials ⟨false, some "r", "tok"⟩ id =
      (.ok ⟨id ⟨false, some "r", "tok"⟩⟩, 1) ∧
    load_credentials ⟨false, none, "tok"⟩ id =
      (.error .invalidCredentials, 0) :=
  ⟨(load_credentials_spec ⟨true, none, "tok"⟩ id).1 rfl,
   (load_credentials_spec ⟨false, some "r", "tok"⟩ id).2.1 rfl rfl,
   (load_credentials_spec ⟨false, none, "tok"⟩ id).2.2 rfl rfl⟩

/-- Claim C7: `save(path)` writes exactly the token's JSON serialization to
the file, overwriting any existing content — reading the path back yields
that identical string — and leaves every other path untouched. -/
theorem save_spec (c : Credentials) (path : String) (fs : FileSystem) :
    (c.save path fs) path = some c._credentials.to_json ∧
    ∀ p, p ≠ path → (c.save path fs) p = fs p := by
  constructor
  · simp [Credentials.save]
  · intro p hp
    simp [Credentials.save, hp]

/-- Concrete instance of claim C7: saving over a file that held `"old"`
leaves exactly the token's serialization there and does not touch another
path. -/
theorem save_spec_witness :
    (Credentials.save ⟨⟨true, none, "tok"⟩⟩ "p"
      (fun q => if q = "p" then some "old" else none)) "p" = some "tok" ∧
    (Credentials.save ⟨⟨true, none, "tok"⟩⟩ "p"
      (fun q => if q = "p" then some "old" else none)) "q" = none :=
  ⟨(save_spec ⟨⟨true, none, "tok"⟩⟩ "p"
      (fun q => if q = "p" then some "old" else none)).1,
   ((save_spec ⟨⟨true, none, "tok"⟩⟩ "p"
      (fun q => if q = "p" then some "old" else none)).2 "q"
        (by decide)).trans (by rfl)⟩

/-- Claim C6 counterexample: with `client_id=""` supplied, `new(...)` passes
the untouched default configuration to the consent flow — not the default
with `client_id` replaced by the supplied `""`. -/
theorem new_credentials_empty_id_cex :
    (new_credentials [] (some "") none true (fun _ _ => ⟨true, none, ""⟩)
      (fun _ _ => ⟨true, none, ""⟩)).1 = [(get_default_config, [])] ∧
    new_client_config (some "") none ≠
      { get_default_config with client_id := "" } ∧
    get_default_config.client_id ≠ "" :=
  ⟨rfl, by decide, by decide⟩

/-- Claim C6 (amended): `new(...)` invokes the consent-flow collaborator
exactly once, with the given scopes and a configuration equal to the fixed
built-in default except that `client_id`/`client_secret` are replaced when
supplied non-empty, and returns a Credential wrapping the token the selected
grant path produces. -/
theorem new_credentials_spec (scopes : List String) (cid cs : Option String)
    (rls : Bool) (localGrant consoleGrant : InstalledConfig → List String → Token) :
    (new_credentials scopes cid cs rls localGrant consoleGrant).1 =
      [(new_client_config cid cs, scopes)] ∧
    (new_client_config cid cs).client_id =
      (match cid with
       | some s => if s = "" then get_default_config.client_id else s
       | none => get_default_config.client_id) ∧
    (new_client_config cid cs).client_secret =
      (match cs with
       | some s => if s = "" then get_default_config.client_secret else s
       | none => get_default_config.client_secret) ∧
    (new_client_config cid cs).project_id = get_default_config.project_id ∧
    (new_client_config cid cs).auth_uri = get_default_config.auth_uri ∧
    (new_client_config cid cs).token_uri = get_default_config.token_uri ∧
    (new_client_config cid cs).auth_provider_x509_cert_url =
      get_default_config.auth_provider_x509_cert_url ∧
    (new_client_config cid cs).redirect_uris =
      get_default_config.redirect_uris ∧
    (new_credentials scopes cid cs rls localGrant consoleGrant).2 =
      ⟨if rls then localGrant (new_client_config cid cs) scopes
        else consoleGrant (new_client_config cid cs) scopes⟩ := by
  refine ⟨rfl, ?_, ?_, (new_client_config_fixed_fields cid cs).1,
    (new_client_config_fixed_fields cid cs).2.1,
    (new_client_config_fixed_fields cid cs).2.2.1,
    (new_client_config_fixed_fields cid cs).2.2.2.1,
    (new_client_config_fixed_fields cid cs).2.2.2.2, rfl⟩
  · rw [new_client_config_client_id]
    cases cid with
    | none => simp [truthyStr]
    | some s => by_cases h : s = "" <;> simp [truthyStr, h]
  · rw [new_client_config_client_secret]
    cases cs with
    | none => simp [truthyStr]
    | some s => by_cases h : s = "" <;> simp [truthyStr, h]

/-- Claim C10: supplying `""` as `client_id` or `client_secret` behaves
exactly like omitting the argument — the override test is truthiness, not
presence — and only a non-empty string replaces the default value. -/
theorem new_credentials_truthiness (scopes : List String)
    (cid cs : Option String) (rls : Bool)
    (localGrant consoleGrant : InstalledConfig → List String → Token)
    (s : String) :
    new_credentials scopes (some "") cs rls localGrant consoleGrant =
      new_credentials scopes none cs rls localGrant consoleGrant ∧
    new_credentials scopes cid (some "") rls localGrant consoleGrant =
      new_credentials scopes cid none rls localGrant consoleGrant ∧
    (s ≠ "" → (new_client_config (some s) cs).client_id = s) ∧
    (s ≠ "" → (new_client_config cid (some s)).client_secret = s) := by
  have h1 : new_client_config (some "") cs = new_client_config none cs := by
    simp [new_client_config, truthyStr]
  have h2 : new_client_config cid (some "") = new_client_config cid none := by
    simp [new_client_config, truthyStr]
  refine ⟨by simp [new_credentials, h1], by simp [new_credentials, h2],
    ?_, ?_⟩
  · intro h
    rw [new_client_config_client_id]
    simp [truthyStr, h]
  · intro h
    rw [new_client_config_client_secret]
    simp [truthyStr, h]

/-- Concrete instances of claim C10: `""` does not override, `"x"`/`"y"`
do. -/
theorem new_credentials_truthiness_witness :
    new_credentials ["s"] (some "") none true (fun _ _ => ⟨true, none, ""⟩)
        (fun _ _ => ⟨true, none, ""⟩) =
      new_credentials ["s"] none none true (fun _ _ => ⟨true, none, ""⟩)
        (fun _ _ => ⟨true, none, ""⟩) ∧
    (new_client_config (some "x") none).client_id = "x" ∧
    (new_client_config none (some "y")).client_secret = "y" :=
  ⟨(new_credentials_truthiness ["s"] none none true
      (fun _ _ => ⟨true, none, ""⟩) (fun _ _ => ⟨true, none, ""⟩) "x").1,
   (new_credentials_truthiness ["s"] none none true
      (fun _ _ => ⟨true, none, ""⟩) (fun _ _ => ⟨true, none, ""⟩) "x").2.2.1
      (by decide),
   (new_credentials_truthiness ["s"] none none true
      (fun _ _ => ⟨true, none, ""⟩) (fun _ _ => ⟨true, none, ""⟩) "y").2.2.2
      (by decide)⟩

/-! ## Claims about the Gmail facade -/

/-- Claim C3 counterexample: the `service_name` property of the mail service
client is `"gmail"`, not `"mail"`. -/
theorem service_name_cex : GmailAPI.service_name ≠ "mail" := by decide

/-- Claim C3 (amended): the mail service client's `service_name` is the
fixed string `"gmail"`; its effective version is `"v1"` when the `version`
field keeps its dataclass default `""`; and its default scopes are exactly
the fixed send and read-only scope strings. -/
theorem gmail_service_descriptor_spec :
    GmailAPI.service_name = "gmail" ∧
    GmailAPI.post_init_version "" = "v1" ∧
    GmailAPI.get_default_scopes =
      ["https://www.googleapis.com/auth/gmail.send",
       "https://www.googleapis.com/auth/gmail.readonly"] :=
  ⟨rfl, rfl, rfl⟩

/-- Claim C5: every `list_message` call issues exactly one request and
returns the response's messages (shallow-copied), its `nextPageToken`
(default `""`), and its `resultSizeEstimate` (default `0`); with
`page_token` and `label_ids` absent the request carries `pageToken=""` and
`labelIds=[]`. -/
theorem list_message_spec (query : String) (mr : Int) (spam : Bool)
    (response : GmailAPI.ListResponse) :
    (∀ (pt : Option String) (li : Option (List String)),
      (GmailAPI.list_message query mr pt li spam response).1.length = 1 ∧
      (GmailAPI.list_message query mr pt li spam response).2 =
        (response.messages.getD [], response.nextPageToken.getD "",
         response.resultSizeEstimate.getD 0)) ∧
    (GmailAPI.list_message query mr none none spam response).1 =
      [{ userId := GmailAPI.user_id, q := query, maxResults := mr,
         pageToken := "", labelIds := [], includeSpamTrash := spam }] := by
  refine ⟨fun pt li => ⟨rfl, ?_⟩, rfl⟩
  simp [GmailAPI.list_message, map_copyMessage]

/-- Claim C2 counterexample: on a response whose only alias lacks the
`isDefault` flag, `get_signature()` with no address still selects that alias
and returns its signature, although no alias has `isDefault` set to true. -/
theorem get_signature_default_cex :
    GmailAPI.get_signature [⟨"a@x", none, some "s"⟩] none = .ok "s" ∧
    SendAs.isDefault ⟨"a@x", none, some "s"⟩ ≠ some true :=
  ⟨rfl, by decide⟩

/-- Claim C2 (amended): with `address` omitted and the response's aliases
carrying pairwise-distinct `sendAsEmail` values, the selected alias is the
last one in the response's listed order whose `isDefault` flag is true or
absent (an absent flag is treated as default), and that alias's `signature`
(default `""`) is returned. -/
theorem get_signature_default_spec (response : List SendAs) (s : SendAs)
    (hnd : (response.map SendAs.sendAsEmail).Nodup)
    (hlast : (response.filter
      (fun x => x.isDefault.getD true)).getLast? = some s) :
    GmailAPI.get_signature response none = .ok (s.signature.getD "") := by
  have hb := buildDict_of_nodup response hnd
  simp only [GmailAPI.get_signature, hb, List.map_map]
  have hv : (Prod.snd ∘ fun t : SendAs => (t.sendAsEmail, t)) = id := rfl
  rw [hv, List.map_id, hlast]

/-- Concrete instance of claim C2 (amended): with a default-flagged alias
`"a@x"` and a non-default `"b@x"`, the signature `"A"` of the default alias
is returned. -/
theorem get_signature_default_spec_witness :
    GmailAPI.get_signature
      [⟨"a@x", some true, some "A"⟩, ⟨"b@x", some false, some "B"⟩] none =
      .ok "A" :=
  get_signature_default_spec
    [⟨"a@x", some true, some "A"⟩, ⟨"b@x", some false, some "B"⟩]
    ⟨"a@x", some true, some "A"⟩ (by decide) (by decide)

/-- Claim C4: `get_signature(address)` with an address absent from the
aliases' `sendAsEmail` values fails with the signature-not-found error
naming the address; with the address present it returns the signature field
of a matching alias, defaulting to `""` when that field is absent. -/
theorem get_signature_address_spec (response : List SendAs) (a : String) :
    ((∀ s ∈ response, s.sendAsEmail ≠ a) →
      GmailAPI.get_signature response (some a) =
        .error (.signatureNotFound a)) ∧
    ((∃ s ∈ response, s.sendAsEmail = a) →
      ∃ s ∈ response, s.sendAsEmail = a ∧
        GmailAPI.get_signature response (some a) =
          .ok (s.signature.getD "")) := by
  constructor
  · intro h
    have hnone : lastMatch response a = none :=
      (lastMatch_eq_none response a).mpr h
    simp [GmailAPI.get_signature, dictGet_buildDict, hnone]
  · intro h
    cases hl : lastMatch response a with
    | none =>
      obtain ⟨s, hs, hsa⟩ := h
      exact absurd hsa ((lastMatch_eq_none response a).mp hl s hs)
    | some v =>
      obtain ⟨hv1, hv2⟩ := lastMatch_mem response a v hl
      refine ⟨v, hv1, hv2, ?_⟩
      simp [GmailAPI.get_signature, dictGet_buildDict, hl]

/-- Concrete instances of claim C4: an unknown address raises the
signature-not-found error; a present address with no `signature` field
yields `""`. -/
theorem get_signature_address_spec_witness :
    GmailAPI.get_signature [⟨"a@x", some true, some "sig"⟩]
      (some "unknown@x.com") =
      .error (.signatureNotFound "unknown@x.com") ∧
    GmailAPI.get_signature [⟨"a@x", some true, none⟩] (some "a@x") =
      .ok "" := by
  constructor
  · exact (get_signature_address_spec [⟨"a@x", some true, some "sig"⟩]
      "unknown@x.com").1 (by decide)
  · obtain ⟨s, hs, hsa, heq⟩ := (get_signature_address_spec
      [⟨"a@x", some true, none⟩] "a@x").2
      ⟨⟨"a@x", some true, none⟩, by simp, rfl⟩
    have hse : s = ⟨"a@x", some true, none⟩ := by simpa using hs
    rw [hse] at heq
    exact heq

/-- Claim C9: with no address given, a response with no send-as alias at
all, or one where every alias has `isDefault` explicitly false, makes
`get_signature` fail with the unhandled `IndexError` of popping an empty
list — which is not the signature-not-found domain error. -/
theorem get_signature_indexerror_spec :
    GmailAPI.get_signature [] none = .error .indexError ∧
    GmailAPI.get_signature [⟨"a@x", some false, some "s"⟩] none =
      .error .indexError ∧
    GmailError.indexError ≠ GmailError.signatureNotFound "a@x" :=
  ⟨rfl, rfl, by decide⟩

/-- Claim C8: `send_message` issues exactly one send call, whose body holds
under the `"raw"` key the URL-safe base64 encoding of the message's byte
serialization; on the doctest vector, the bytes of `"fake message"` encode
to `"ZmFrZSBtZXNzYWdl"`. -/
theorem send_message_spec :
    (∀ msgBytes : List Nat,
      (GmailAPI.send_message msgBytes).1 =
        [{ userId := GmailAPI.user_id,
           raw := String.mk (base64urlEncode msgBytes) }] ∧
      (GmailAPI.send_message msgBytes).1.length = 1) ∧
    (GmailAPI.send_message
        [102, 97, 107, 101, 32, 109, 101, 115, 115, 97, 103, 101]).1 =
      [{ userId := "me", raw := "ZmFrZSBtZXNzYWdl" }] := by
  refine ⟨fun msgBytes => ⟨rfl, rfl⟩, ?_⟩
  rfl
